import Mathlib

/-!
A shallow embedding of `lisa/platform_.py`: the environment lifecycle
orchestration (prepare / deploy / delete), the platform factory
(`load_platform`) and the environment-information hook, together with
theorems checking the specified properties against this embedding.

Python exceptions are modelled with `Except`; in-place mutation of the
`Environment` object is modelled by returning the mutated environment,
also inside the error payload (a raised exception leaves the mutations
performed before the raise visible to the caller).
-/

namespace Lisa

/-- Modelled from the spec: the lifecycle states of
`lisa.environment.EnvironmentStatus` (the environment module is outside
this core): `Initialized, Prepared, Deployed, Deleted`. -/
inductive EnvironmentStatus where
  | Initialized
  | Prepared
  | Deployed
  | Deleted
deriving DecidableEq, Repr

/-- Modelled from the spec: a node of an environment (`lisa.node`, outside
this core). A remote-connection node carries optional explicit connection
credentials; `features` records the platform whose feature set was
constructed for the node at deploy time (`node.features = Features(node,
platform)` in the source). -/
structure Node where
  name : String
  is_remote : Bool
  username : Option String
  password : Option String
  private_key_file : Option String
  features : Option String
deriving DecidableEq, Repr

/-- Modelled from the spec: the observable fields of
`lisa.environment.Environment` (outside this core) that the orchestration
reads or writes: the node list, the lifecycle `status`, the optional
back-reference to the owning platform (stored as its type name), and a
`closed` flag recording that `environment.close()` has run. -/
structure Environment where
  name : String
  nodes : List Node
  status : EnvironmentStatus
  platform : Option String
  closed : Bool
deriving DecidableEq, Repr

/-- The platform configuration record `schema.Platform` as used by this
core: the declared type name, the admin credential defaults and the
retention flag `keep_environment`. -/
structure SchemaPlatform where
  type : String
  admin_username : String
  admin_password : String
  admin_private_key_file : String
  keep_environment : String
deriving DecidableEq, Repr

/-- Modelled from the spec: `constants.ENVIRONMENT_KEEP_ALWAYS`, the
recognized "always keep" value of the retention flag. -/
def ENVIRONMENT_KEEP_ALWAYS : String := "always"

/-- The overridable platform-specific routines of the `Platform` base
class, i.e. the protected methods a concrete subclass implements:
`_prepare_environment` (the capability negotiation, returning feasibility),
`_deploy_environment`, `_delete_environment` and
`_get_environment_information`. Fallible routines return `Except`. -/
structure PlatformImpl where
  type_name : String
  _prepare_environment : Environment → Bool
  _deploy_environment : Environment → Except String Unit
  _delete_environment : Environment → Except String Unit
  _get_environment_information : Environment → Except String (List (String × String))

/-- A `Platform` instance: its parsed configuration (`self.runbook`) and
the subclass-provided routines. -/
structure Platform where
  runbook : SchemaPlatform
  impl : PlatformImpl

/-- `Platform.type_name()`: the type name of the concrete subclass. -/
def Platform.type_name (p : Platform) : String := p.impl.type_name

/-- Modelled from the spec: `RemoteNode.set_connection_info_by_runbook`
(`lisa.node`, outside this core) — a fill-if-absent merge of the platform
default credentials into the node's connection info; explicit per-node
settings are never overwritten. -/
def set_connection_info_by_runbook (default_username default_password
    default_private_key_file : String) (n : Node) : Node :=
  { n with
    username := some (n.username.getD default_username),
    password := some (n.password.getD default_password),
    private_key_file := some (n.private_key_file.getD default_private_key_file) }

/-- The per-node step of `prepare_environment`'s loop: only `RemoteNode`
instances receive the connection-info merge. -/
def prepare_fill_node (rb : SchemaPlatform) (n : Node) : Node :=
  if n.is_remote then
    set_connection_info_by_runbook rb.admin_username rb.admin_password
      rb.admin_private_key_file n
  else n

/-- The environment after `prepare_environment`'s credential-filling loop
(run before the capability check, so it happens on the failure path too). -/
def prepare_filled (p : Platform) (env : Environment) : Environment :=
  { env with nodes := env.nodes.map (prepare_fill_node p.runbook) }

/-- `Platform.prepare_environment`: fill connection info on remote nodes
from the runbook defaults, then run `_prepare_environment`; on success the
status becomes `Prepared`, otherwise a `LisaException` ("no capability
found") is raised. -/
def Platform.prepare_environment (p : Platform) (env : Environment) :
    Except (String × Environment) Environment :=
  if p.impl._prepare_environment (prepare_filled p env) then
    Except.ok { prepare_filled p env with status := EnvironmentStatus.Prepared }
  else
    Except.error ("no capability found for environment", prepare_filled p env)

/-- The environment right after `environment.platform = self`, the binding
performed by `deploy_environment` before the platform-specific routine. -/
def deploy_bound (p : Platform) (env : Environment) : Environment :=
  { env with platform := some p.type_name }

/-- `Platform.deploy_environment`: bind `environment.platform = self`, run
`_deploy_environment` (an exception propagates, with the binding already
done), then set status `Deployed` and construct `Features(node, self)` for
every node. -/
def Platform.deploy_environment (p : Platform) (env : Environment) :
    Except (String × Environment) Environment :=
  match p.impl._deploy_environment (deploy_bound p env) with
  | Except.error e => Except.error (e, deploy_bound p env)
  | Except.ok _ =>
    Except.ok { deploy_bound p env with
      status := EnvironmentStatus.Deployed,
      nodes := env.nodes.map (fun n => { n with features := some (Platform.type_name p) }) }

/-- `Platform.delete_environment`: `environment.close()` first, then either
skip the platform-specific deletion (when `keep_environment` is the
"always" value) or run `_delete_environment`, and finally set status
`Deleted`. The source has no exception handler around
`_delete_environment`, so a raise propagates before the status assignment.
The second component of the result records whether the platform-specific
`_delete_environment` routine was invoked during this call. -/
def Platform.delete_environment (p : Platform) (env : Environment) :
    Except (String × Environment) Environment × Bool :=
  if p.runbook.keep_environment = ENVIRONMENT_KEEP_ALWAYS then
    (Except.ok { env with closed := true, status := EnvironmentStatus.Deleted }, false)
  else
    match p.impl._delete_environment { env with closed := true } with
    | Except.error e => (Except.error (e, { env with closed := true }), true)
    | Except.ok _ =>
      (Except.ok { env with closed := true, status := EnvironmentStatus.Deleted }, true)

/-- Python `dict.update`: keys of `base` keep their position with values
replaced by `extra` where present; new keys of `extra` are appended. -/
def dict_update (base extra : List (String × String)) : List (String × String) :=
  base.map (fun kv =>
    match extra.lookup kv.1 with
    | some v => (kv.1, v)
    | none => kv)
  ++ extra.filter (fun kv => (base.lookup kv.1).isNone)

/-- `Platform.get_environment_information` (the hook contribution):
`assert environment.platform` (modelled as an error when the owning
platform is unset), return an empty mapping when the owner's type name
differs from this contributor's, otherwise record the platform name and
merge `_get_environment_information`, swallowing any exception it raises. -/
def Platform.get_environment_information (p : Platform) (env : Environment) :
    Except String (List (String × String)) :=
  match env.platform with
  | none => Except.error "assertion failed: environment.platform"
  | some owner =>
    if owner ≠ p.type_name then
      Except.ok []
    else
      match p.impl._get_environment_information env with
      | Except.ok extra => Except.ok (dict_update [("platform", owner)] extra)
      | Except.error _ => Except.ok [("platform", owner)]

/-- Modelled from the spec: `subclasses.Factory[Platform].create_by_runbook`
(`lisa.util.subclasses`, outside this core) — resolve the configuration's
declared type name against the registry of implementations; an unknown
type name is a fatal error, otherwise the matching implementation is
constructed with the given runbook. -/
def create_by_runbook (registry : List (String × PlatformImpl))
    (rb : SchemaPlatform) : Except String Platform :=
  match registry.lookup rb.type with
  | none => Except.error ("unknown platform type: " ++ rb.type)
  | some impl => Except.ok { runbook := rb, impl := impl }

/-- `load_platform`: exactly one platform configuration record must be
present ("There must be 1 and only 1 platform"); the single record is
handed to the factory. -/
def load_platform (registry : List (String × PlatformImpl))
    (platforms_runbook : List SchemaPlatform) : Except String Platform :=
  match platforms_runbook with
  | [rb] => create_by_runbook registry rb
  | _ => Except.error "There must be 1 and only 1 platform"

/-- A registry is well formed when every implementation is registered
under its own type name, as the subclass factory does. -/
def registry_wf (registry : List (String × PlatformImpl)) : Prop :=
  ∀ n impl, registry.lookup n = some impl → impl.type_name = n

/-! ### Concrete fixtures used by witnesses and counterexamples -/

/-- A platform runbook with retention set to delete. -/
def exRunbookNo : SchemaPlatform :=
  { type := "simulated", admin_username := "admin", admin_password := "pw",
    admin_private_key_file := "/keys/id", keep_environment := "no" }

/-- The same runbook with retention set to the "always keep" value. -/
def exRunbookKeep : SchemaPlatform :=
  { exRunbookNo with keep_environment := ENVIRONMENT_KEEP_ALWAYS }

/-- A trivially succeeding platform implementation. -/
def okImpl : PlatformImpl :=
  { type_name := "simulated",
    _prepare_environment := fun _ => true,
    _deploy_environment := fun _ => Except.ok (),
    _delete_environment := fun _ => Except.ok (),
    _get_environment_information := fun _ => Except.ok [] }

def exPlatOk : Platform := { runbook := exRunbookNo, impl := okImpl }

def exPlatKeep : Platform := { runbook := exRunbookKeep, impl := okImpl }

def exPlatPrepFail : Platform :=
  { runbook := exRunbookNo,
    impl := { okImpl with _prepare_environment := fun _ => false } }

def exPlatDeleteFail : Platform :=
  { runbook := exRunbookNo,
    impl := { okImpl with _delete_environment := fun _ => Except.error "delete failed" } }

def exPlatInfoFail : Platform :=
  { runbook := exRunbookNo,
    impl := { okImpl with
      _get_environment_information := fun _ => Except.error "info failed" } }

/-- A freshly initialized environment with no nodes. -/
def exEnvInit : Environment :=
  { name := "env1", nodes := [], status := EnvironmentStatus.Initialized,
    platform := none, closed := false }

def exEnvPrepared : Environment := { exEnvInit with status := EnvironmentStatus.Prepared }

def exEnvDeployed : Environment :=
  { exEnvInit with status := EnvironmentStatus.Deployed, platform := some "simulated" }

def exEnvDeleted : Environment :=
  { exEnvDeployed with status := EnvironmentStatus.Deleted, closed := true }

/-- A remote node without explicit credentials. -/
def exNodeBare : Node :=
  { name := "node0", is_remote := true, username := none, password := none,
    private_key_file := none, features := none }

/-- A remote node with explicit per-node credentials. -/
def exNodeCred : Node :=
  { name := "node1", is_remote := true, username := some "u1",
    password := some "p1", private_key_file := some "/k1", features := none }

/-- An initialized environment holding one bare and one credentialed node. -/
def exEnvNodes : Environment := { exEnvInit with nodes := [exNodeBare, exNodeCred] }

/-- The bare node after the credential merge with `exRunbookNo`. -/
def exNodeBareFilled : Node :=
  { exNodeBare with
    username := some "admin",
    password := some "pw",
    private_key_file := some "/keys/id" }

/-- `exEnvNodes` after a successful prepare, as a record literal. -/
def exEnvNodesPrepared : Environment :=
  { exEnvNodes with
    status := EnvironmentStatus.Prepared,
    nodes := [exNodeBareFilled, exNodeCred] }

/-- A one-implementation registry for the factory. -/
def exRegistry : List (String × PlatformImpl) := [("simulated", okImpl)]

/-! ### Helper lemmas -/

/-- A singleton registry keyed by the implementation's own type name is
well formed. -/
theorem singleton_registry_wf (name : String) (impl : PlatformImpl)
    (h : impl.type_name = name) : registry_wf [(name, impl)] := by
  intro n i hlk
  cases hbe : (n == name) with
  | false => simp [List.lookup, hbe] at hlk
  | true =>
    simp [List.lookup, hbe] at hlk
    subst hlk
    rw [h, eq_of_beq hbe]

/-- A successful prepare leaves the environment in status `Prepared`. -/
theorem prepare_ok_status (p : Platform) (e e' : Environment)
    (h : Platform.prepare_environment p e = Except.ok e') :
    e'.status = EnvironmentStatus.Prepared := by
  unfold Platform.prepare_environment at h
  split at h
  · cases h
    rfl
  · cases h

/-- A successful deploy leaves the environment in status `Deployed`. -/
theorem deploy_ok_status (p : Platform) (e e' : Environment)
    (h : Platform.deploy_environment p e = Except.ok e') :
    e'.status = EnvironmentStatus.Deployed := by
  unfold Platform.deploy_environment at h
  split at h
  · cases h
  · cases h
    rfl

/-- A successful delete leaves the environment in status `Deleted`. -/
theorem delete_ok_status (p : Platform) (e e' : Environment) (b : Bool)
    (h : Platform.delete_environment p e = (Except.ok e', b)) :
    e'.status = EnvironmentStatus.Deleted := by
  unfold Platform.delete_environment at h
  split at h
  · cases h
    rfl
  · split at h
    · cases h
    · cases h
      rfl

/-! ### Claim theorems -/

/-- Claim C3: `prepare_environment` raises a capability error exactly when
the negotiation `_prepare_environment` reports infeasible; on that failure
the environment's status remains `Initialized`, and on success the status
is advanced to `Prepared`. -/
theorem prepare_capability_error_iff_infeasible (p : Platform) (env : Environment)
    (hinit : env.status = EnvironmentStatus.Initialized) :
    ((Platform.prepare_environment p env).isOk = false ↔
      p.impl._prepare_environment (prepare_filled p env) = false) ∧
    (∀ msg env', Platform.prepare_environment p env = Except.error (msg, env') →
      env'.status = EnvironmentStatus.Initialized ∧
      msg = "no capability found for environment") ∧
    (∀ env', Platform.prepare_environment p env = Except.ok env' →
      env'.status = EnvironmentStatus.Prepared) := by
  cases hpe : p.impl._prepare_environment (prepare_filled p env) with
  | true =>
    refine ⟨by simp [Platform.prepare_environment, hpe, Except.isOk, Except.toBool], ?_, ?_⟩
    · intro msg env' h
      rw [Platform.prepare_environment.eq_def, hpe] at h
      cases h
    · intro env' h
      exact prepare_ok_status p env env' h
  | false =>
    refine ⟨by simp [Platform.prepare_environment, hpe, Except.isOk, Except.toBool], ?_, ?_⟩
    · intro msg env' h
      rw [Platform.prepare_environment.eq_def, hpe] at h
      simp at h
      obtain ⟨hmsg, henv⟩ := h
      subst henv
      exact ⟨by simp [prepare_filled, hinit], hmsg.symm⟩
    · intro env' h
      rw [Platform.prepare_environment.eq_def, hpe] at h
      cases h

/-- Witness for claim C3 at a concrete infeasible platform. -/
theorem prepare_capability_error_iff_infeasible_witness :
    (Platform.prepare_environment exPlatPrepFail exEnvInit).isOk = false ↔
      exPlatPrepFail.impl._prepare_environment
        (prepare_filled exPlatPrepFail exEnvInit) = false :=
  (prepare_capability_error_iff_infeasible exPlatPrepFail exEnvInit rfl).1

/-- Claim C7: with the retention flag set to the "always keep" value,
`delete_environment` never invokes the platform-specific deletion routine
but still advances the status to `Deleted` (after closing the
environment). -/
theorem delete_keep_always_skips_teardown (p : Platform) (env : Environment)
    (h : p.runbook.keep_environment = ENVIRONMENT_KEEP_ALWAYS) :
    Platform.delete_environment p env =
      (Except.ok { env with closed := true, status := EnvironmentStatus.Deleted },
       false) := by
  simp [Platform.delete_environment, h]

/-- Witness for claim C7 at a concrete keep-always platform. -/
theorem delete_keep_always_skips_teardown_witness :
    Platform.delete_environment exPlatKeep exEnvDeployed =
      (Except.ok { exEnvDeployed with closed := true, status := EnvironmentStatus.Deleted },
       false) :=
  delete_keep_always_skips_teardown exPlatKeep exEnvDeployed rfl

/-- Claim C10: when the environment's owning-platform reference is unset,
`get_environment_information` fails its assertion before the identity
filter or the error-swallowing block is reached; it never returns a
mapping. -/
theorem info_requires_owning_platform (p : Platform) (env : Environment)
    (h : env.platform = none) :
    Platform.get_environment_information p env =
      Except.error "assertion failed: environment.platform" := by
  simp [Platform.get_environment_information, h]

/-- Witness for claim C10 at a concrete never-deployed environment. -/
theorem info_requires_owning_platform_witness :
    Platform.get_environment_information exPlatOk exEnvInit =
      Except.error "assertion failed: environment.platform" :=
  info_requires_owning_platform exPlatOk exEnvInit rfl

/-- Claim C8: the hook contribution returns an empty mapping when the
environment's owning platform's type name differs from the contributor's;
when it matches, an exception from `_get_environment_information` is
swallowed and the call still returns a mapping containing the platform
name. -/
theorem info_filters_by_identity_and_swallows_failures (p : Platform)
    (env : Environment) (owner : String)
    (h : env.platform = some owner) :
    (owner ≠ Platform.type_name p →
      Platform.get_environment_information p env = Except.ok []) ∧
    (owner = Platform.type_name p →
      ∀ msg, p.impl._get_environment_information env = Except.error msg →
        Platform.get_environment_information p env =
          Except.ok [("platform", owner)] ∧
        List.lookup "platform" [("platform", owner)] = some owner) := by
  constructor
  · intro hne
    simp [Platform.get_environment_information, h]
    exact fun heq => absurd heq hne
  · intro heq msg hmsg
    refine ⟨?_, by simp [List.lookup]⟩
    simp [Platform.get_environment_information, h, Platform.type_name, heq, hmsg]

/-- Witness for claim C8: a matching contributor whose information
gatherer raises still returns the platform-name mapping. -/
theorem info_filters_by_identity_and_swallows_failures_witness :
    Platform.get_environment_information exPlatInfoFail exEnvDeployed =
      Except.ok [("platform", "simulated")] ∧
    List.lookup "platform" [("platform", "simulated")] = some "simulated" :=
  (info_filters_by_identity_and_swallows_failures exPlatInfoFail exEnvDeployed
    "simulated" rfl).2 rfl "info failed" rfl

/-- Claim C2: `load_platform` raises a fatal configuration error when the
configuration list's length is not exactly 1; for a single record it
returns exactly the platform the registry maps the declared type name to
(with matching type name), and an unknown type name is a fatal error. -/
theorem load_platform_cardinality_and_type (registry : List (String × PlatformImpl))
    (rbs : List SchemaPlatform) (rb : SchemaPlatform) (impl : PlatformImpl)
    (hwf : registry_wf registry) :
    (rbs.length ≠ 1 →
      load_platform registry rbs = Except.error "There must be 1 and only 1 platform") ∧
    (registry.lookup rb.type = some impl →
      load_platform registry [rb] = Except.ok { runbook := rb, impl := impl } ∧
      Platform.type_name { runbook := rb, impl := impl } = rb.type) ∧
    (registry.lookup rb.type = none →
      load_platform registry [rb] =
        Except.error ("unknown platform type: " ++ rb.type)) := by
  refine ⟨?_, ?_, ?_⟩
  · intro hlen
    cases rbs with
    | nil => rfl
    | cons a t =>
      cases t with
      | nil => exact absurd rfl hlen
      | cons b t2 => rfl
  · intro hlk
    constructor
    · simp [load_platform, create_by_runbook, hlk]
    · simpa [Platform.type_name] using hwf rb.type impl hlk
  · intro hlk
    simp [load_platform, create_by_runbook, hlk]

/-- Witness for claim C2 at a concrete one-element registry: the factory
result for the single valid record and the error for the empty list. -/
theorem load_platform_cardinality_and_type_witness :
    load_platform exRegistry [exRunbookNo] = Except.ok { runbook := exRunbookNo, impl := okImpl } ∧
    Platform.type_name { runbook := exRunbookNo, impl := okImpl } = exRunbookNo.type :=
  (load_platform_cardinality_and_type exRegistry [] exRunbookNo okImpl
    (singleton_registry_wf "simulated" okImpl rfl)).2.1 rfl

/-- Claim C4: `deploy_environment` binds the environment's owning platform
before invoking the platform-specific routine (the routine receives the
bound environment); an exception from the routine propagates with the
status still `Prepared`, and on success the status becomes `Deployed` and
every node receives a feature set built with the bound platform. -/
theorem deploy_binds_then_advances (p : Platform) (env : Environment)
    (hprep : env.status = EnvironmentStatus.Prepared) :
    ((deploy_bound p env).platform = some (Platform.type_name p) ∧
     (deploy_bound p env).status = EnvironmentStatus.Prepared) ∧
    (∀ e, p.impl._deploy_environment (deploy_bound p env) = Except.error e →
      Platform.deploy_environment p env = Except.error (e, deploy_bound p env)) ∧
    (∀ u, p.impl._deploy_environment (deploy_bound p env) = Except.ok u →
      Platform.deploy_environment p env = Except.ok
        { env with
          platform := some (Platform.type_name p),
          status := EnvironmentStatus.Deployed,
          nodes := env.nodes.map (fun n => { n with features := some (Platform.type_name p) }) }) ∧
    (∀ env', Platform.deploy_environment p env = Except.ok env' →
      env'.status = EnvironmentStatus.Deployed ∧
      env'.platform = some (Platform.type_name p) ∧
      ∀ n, n ∈ env'.nodes → n.features = some (Platform.type_name p)) := by
  refine ⟨⟨rfl, hprep⟩, ?_, ?_, ?_⟩
  · intro e he
    simp [Platform.deploy_environment, he]
  · intro u hu
    unfold Platform.deploy_environment
    rw [hu]
    simp [deploy_bound]
  · intro env' henv'
    unfold Platform.deploy_environment at henv'
    split at henv'
    · cases henv'
    · injection henv' with hr
      subst hr
      refine ⟨rfl, rfl, ?_⟩
      intro n hn
      rw [List.mem_map] at hn
      obtain ⟨m, _, hm⟩ := hn
      subst hm
      rfl

/-- Witness for claim C4 at a concrete prepared environment and succeeding
platform. -/
theorem deploy_binds_then_advances_witness :
    Platform.deploy_environment exPlatOk exEnvPrepared = Except.ok
      { exEnvPrepared with
        platform := some (Platform.type_name exPlatOk),
        status := EnvironmentStatus.Deployed,
        nodes := exEnvPrepared.nodes.map
          (fun n => { n with features := some (Platform.type_name exPlatOk) }) } :=
  (deploy_binds_then_advances exPlatOk exEnvPrepared rfl).2.2.1 () rfl

/-- Claim C9: after a successful `prepare_environment` the environment's
nodes are exactly the original nodes passed through the credential merge,
which on a remote node fills the platform defaults for any absent
username / password / private-key-file, never overwrites an explicit
value, and leaves non-remote nodes untouched. -/
theorem prepare_fills_credentials_if_absent (p : Platform) (env env' : Environment)
    (h : Platform.prepare_environment p env = Except.ok env') :
    env'.nodes = env.nodes.map (prepare_fill_node p.runbook) ∧
    (∀ rb n, n.is_remote = false → prepare_fill_node rb n = n) ∧
    (∀ rb n, n.is_remote = true →
      (prepare_fill_node rb n).name = n.name ∧
      (prepare_fill_node rb n).features = n.features ∧
      (n.username = none →
        (prepare_fill_node rb n).username = some rb.admin_username) ∧
      (∀ u, n.username = some u → (prepare_fill_node rb n).username = some u) ∧
      (n.password = none →
        (prepare_fill_node rb n).password = some rb.admin_password) ∧
      (∀ w, n.password = some w → (prepare_fill_node rb n).password = some w) ∧
      (n.private_key_file = none →
        (prepare_fill_node rb n).private_key_file = some rb.admin_private_key_file) ∧
      (∀ k, n.private_key_file = some k →
        (prepare_fill_node rb n).private_key_file = some k)) := by
  refine ⟨?_, ?_, ?_⟩
  · unfold Platform.prepare_environment at h
    split at h
    · cases h
      rfl
    · cases h
  · intro rb n hn
    simp [prepare_fill_node, hn]
  · intro rb n hn
    refine ⟨?_, ?_, ?_, ?_, ?_, ?_, ?_, ?_⟩
    · simp [prepare_fill_node, hn, set_connection_info_by_runbook]
    · simp [prepare_fill_node, hn, set_connection_info_by_runbook]
    · intro hu
      simp [prepare_fill_node, hn, set_connection_info_by_runbook, hu]
    · intro u hu
      simp [prepare_fill_node, hn, set_connection_info_by_runbook, hu]
    · intro hw
      simp [prepare_fill_node, hn, set_connection_info_by_runbook, hw]
    · intro w hw
      simp [prepare_fill_node, hn, set_connection_info_by_runbook, hw]
    · intro hk
      simp [prepare_fill_node, hn, set_connection_info_by_runbook, hk]
    · intro k hk
      simp [prepare_fill_node, hn, set_connection_info_by_runbook, hk]

/-- Witness for claim C9 at a concrete environment with one bare and one
credentialed remote node. -/
theorem prepare_fills_credentials_if_absent_witness :
    exEnvNodesPrepared.nodes = exEnvNodes.nodes.map (prepare_fill_node exPlatOk.runbook) :=
  (prepare_fills_credentials_if_absent exPlatOk exEnvNodes exEnvNodesPrepared rfl).1

/-- Claim C1 counterexample: the lifecycle operations perform no status
check, so an out-of-order call is not rejected — `deploy_environment` on
a still-`Initialized` environment succeeds, refuting "the wrong transition
is unreachable"; concretely at `exPlatOk` and `exEnvInit`. -/
theorem out_of_order_deploy_not_rejected :
    ¬ (∀ (p : Platform) (env : Environment),
        env.status = EnvironmentStatus.Initialized →
        (Platform.deploy_environment p env).isOk = false) := by
  intro hclaim
  have h2 : (Platform.deploy_environment exPlatOk exEnvInit).isOk = true := rfl
  rw [hclaim exPlatOk exEnvInit rfl] at h2
  exact Bool.false_ne_true h2

/-- Claim C1 (amended): when the orchestration operations are invoked in
order and each succeeds, the observed status sequence is exactly
`Initialized, Prepared, Deployed, Deleted`; the operations themselves
never inspect the current status, so out-of-order calls are not rejected
and ordering is the caller's responsibility. -/
theorem lifecycle_in_order_trace (p : Platform) (e0 e1 e2 e3 : Environment) (b : Bool)
    (h0 : e0.status = EnvironmentStatus.Initialized)
    (h1 : Platform.prepare_environment p e0 = Except.ok e1)
    (h2 : Platform.deploy_environment p e1 = Except.ok e2)
    (h3 : Platform.delete_environment p e2 = (Except.ok e3, b)) :
    [e0.status, e1.status, e2.status, e3.status] =
      [EnvironmentStatus.Initialized, EnvironmentStatus.Prepared,
       EnvironmentStatus.Deployed, EnvironmentStatus.Deleted] := by
  rw [h0, prepare_ok_status p e0 e1 h1, deploy_ok_status p e1 e2 h2,
    delete_ok_status p e2 e3 b h3]

/-- Witness for the amended claim C1: a concrete in-order run through all
four states. -/
theorem lifecycle_in_order_trace_witness :
    [exEnvInit.status, exEnvPrepared.status, exEnvDeployed.status, exEnvDeleted.status] =
      [EnvironmentStatus.Initialized, EnvironmentStatus.Prepared,
       EnvironmentStatus.Deployed, EnvironmentStatus.Deleted] :=
  lifecycle_in_order_trace exPlatOk exEnvInit exEnvPrepared exEnvDeployed exEnvDeleted
    true rfl rfl rfl rfl

/-- Claim C5 counterexample: `delete_environment` has no handler around
the platform-specific deletion routine, so a raise there propagates to
the caller and the status is never advanced to `Deleted`; concretely at
`exPlatDeleteFail` and `exEnvDeployed`. -/
theorem delete_failure_not_swallowed :
    ¬ (∀ (p : Platform) (env : Environment) (e : String),
        p.impl._delete_environment { env with closed := true } = Except.error e →
        ∃ env', (Platform.delete_environment p env).1 = Except.ok env' ∧
          env'.status = EnvironmentStatus.Deleted) := by
  intro hclaim
  obtain ⟨env', henv', -⟩ := hclaim exPlatDeleteFail exEnvDeployed "delete failed" rfl
  have hact : (Platform.delete_environment exPlatDeleteFail exEnvDeployed).1 =
      Except.error ("delete failed", { exEnvDeployed with closed := true }) := rfl
  rw [hact] at henv'
  exact Except.noConfusion henv'

/-- Claim C5 (amended): when the platform-specific deletion routine
raises (and the retention flag is not "always keep"), the exception
propagates out of `delete_environment` and the status is not advanced;
the environment has nonetheless been closed first. -/
theorem delete_failure_propagates (p : Platform) (env : Environment) (e : String)
    (hk : p.runbook.keep_environment ≠ ENVIRONMENT_KEEP_ALWAYS)
    (hd : p.impl._delete_environment { env with closed := true } = Except.error e) :
    Platform.delete_environment p env =
      (Except.error (e, { env with closed := true }), true) ∧
    ({ env with closed := true }).status = env.status := by
  refine ⟨?_, rfl⟩
  simp [Platform.delete_environment, hk, hd]

/-- Witness for the amended claim C5 at a concrete failing deletion
routine. -/
theorem delete_failure_propagates_witness :
    Platform.delete_environment exPlatDeleteFail exEnvDeployed =
      (Except.error ("delete failed", { exEnvDeployed with closed := true }), true) ∧
    ({ exEnvDeployed with closed := true }).status = exEnvDeployed.status :=
  delete_failure_propagates exPlatDeleteFail exEnvDeployed "delete failed"
    (by decide) rfl

/-- Claim C6 counterexample: `delete_environment` never inspects the
status, so a second delete on an already-`Deleted` environment invokes
the platform-specific deletion routine again — it is not a no-op with
respect to platform resources; concretely at `exPlatOk` and
`exEnvDeleted`. -/
theorem delete_after_deleted_invokes_again :
    ¬ (∀ (p : Platform) (env : Environment),
        env.status = EnvironmentStatus.Deleted →
        (Platform.delete_environment p env).2 = false) := by
  intro hclaim
  have h2 : (Platform.delete_environment exPlatOk exEnvDeleted).2 = true := rfl
  rw [hclaim exPlatOk exEnvDeleted rfl] at h2
  exact Bool.false_ne_true h2

/-- Claim C6 (amended): a second delete on an already-`Deleted`
environment runs the full delete path again — the platform-specific
routine is invoked a second time; the call does not raise provided that
routine itself succeeds, and the status remains `Deleted`. -/
theorem delete_again_reruns_routine (p : Platform) (env : Environment)
    (hs : env.status = EnvironmentStatus.Deleted)
    (hk : p.runbook.keep_environment ≠ ENVIRONMENT_KEEP_ALWAYS)
    (hd : p.impl._delete_environment { env with closed := true } = Except.ok ()) :
    Platform.delete_environment p env =
      (Except.ok { env with closed := true, status := EnvironmentStatus.Deleted }, true) := by
  simp [Platform.delete_environment, hk, hd]

/-- Witness for the amended claim C6 at a concrete already-deleted
environment. -/
theorem delete_again_reruns_routine_witness :
    Platform.delete_environment exPlatOk exEnvDeleted =
      (Except.ok { exEnvDeleted with closed := true, status := EnvironmentStatus.Deleted }, true) :=
  delete_again_reruns_routine exPlatOk exEnvDeleted rfl (by decide) rfl

end Lisa
